import Mathlib

/-!
Verification development for the stay-oceanus stripe-server relay.

The repository holds several near-duplicate revisions of an Express HTTP
relay that verifies Stripe webhook events and forwards a re-shaped payload
to a Google-Apps-Script (GAS) ingestion URL.  This file shallowly embeds
the request handlers of those revisions:

* `normalizeEventV1` / `webhookRoute` / `forwardEventToGas` — the first
  revision in `src/server.js` (the `/webhook` dispatch and GAS forwarder);
* `normalizeEventV2` — the `/webhook` dispatch of `src/unnamed/part_001`
  (identical to the one in `src/unnamed/part_000`);
* `buildCheckoutPayload` — the helper of the last revision in
  `src/server.js`;
* `createCheckoutSessionV1` — the `/create-checkout-session` handler of the
  first revision in `src/server.js`;
* `isAfterSellStop`, `isTomorrowJST`, `createCheckoutSessionSellStop` — the
  sell-stop (cutoff) revision of `src/unnamed/part_002`;
* `creationMetadata` — the metadata object attached at session creation in
  `src/unnamed/part_000`.

JavaScript objects are embedded as structures whose fields are `Option`s
(`none` = the field is absent / `undefined` / `null`); JavaScript's
truthiness-based `a || b` fallbacks are embedded through `strTruthy` and
friends.  External collaborators (the Stripe SDK's signature verification
and session lookup, the `fetch` response of the GAS endpoint) are inputs of
the embedded handlers, so the handlers themselves stay pure functions.
-/

/-- A JavaScript object used as a string-to-string dictionary
(Stripe metadata). -/
abbrev SMap := List (String × String)

/-- Field access `m.k` on a dictionary object: the first binding wins. -/
def SMap.lookup : SMap → String → Option String
  | [], _ => none
  | (k', v) :: rest, k => if k' = k then some v else SMap.lookup rest k

/-- JavaScript truthiness of a possibly-absent string: `undefined`, `null`
and the empty string are falsy. -/
def strTruthy : Option String → Bool
  | none => false
  | some s => !(s == "")

/-- The JavaScript expression `a || b` on possibly-absent strings. -/
def jsOrStr (a b : Option String) : Option String :=
  if strTruthy a then a else b

/-- The JavaScript chain `x1 || x2 || ... || null`: the first truthy
string, and `null` when every alternative is falsy. -/
def firstTruthy : List (Option String) → Option String
  | [] => none
  | x :: rest => if strTruthy x then x else firstTruthy rest

/-- The `customer_details` sub-object of a Stripe checkout session. -/
structure CustomerDetails where
  email : Option String := none
deriving Repr, DecidableEq

/-- A Stripe object carried in `event.data.object`.  JavaScript objects are
bags of fields, so one structure embeds both checkout sessions and payment
intents; a field the real object does not carry is `none` (`undefined`). -/
structure SObj where
  id : Option String := none
  payment_intent : Option String := none
  payment_status : Option String := none
  payment_method_types : Option (List String) := none
  metadata : Option SMap := none
  customer_details : Option CustomerDetails := none
  customer_email : Option String := none
  receipt_email : Option String := none
deriving Repr, DecidableEq

/-- A verified Stripe event as used by the dispatching revisions: its type
string and its `data.object`. -/
structure Event1 where
  type : String
  object : SObj
deriving Repr, DecidableEq

/-- The JSON payload POSTed to the GAS endpoint.  Different branches and
revisions populate different subsets of these fields; an absent field is
`none`. -/
structure Payload where
  type : Option String := none
  data_object : Option SObj := none
  payment_status : Option String := none
  payment_method : Option String := none
  email : Option String := none
  payment_intent : Option String := none
deriving Repr, DecidableEq

/-- The environment of one request: the configured GAS webhook URL (absent
when the variable is unset) and the HTTP response the GAS endpoint would
give to a POST. -/
structure Env where
  gasUrl : Option String
  gasStatus : Nat
  gasBody : String
deriving Repr, DecidableEq

/-- Outcome of `forwardEventToGas`: the URL was unset and the call was
skipped, the downstream answered 2xx, or it answered outside 2xx (the
thrown `Error` carries the downstream status and response body). -/
inductive FwdOutcome where
  | skipped
  | success
  | failed (status : Nat) (body : String)
deriving Repr, DecidableEq

/-- The `response.ok` predicate of `fetch`: the status is in the inclusive
range 200-299. -/
def respOk (status : Nat) : Bool :=
  decide (200 ≤ status ∧ status ≤ 299)

/-- The GAS forwarder of the first revision in `src/server.js`: skip (with
only a warning) when the URL is unset; otherwise POST the payload and throw
an error carrying the status and response body unless the response is ok.
The second component records the network POSTs actually made. -/
def forwardEventToGas (env : Env) (payload : Payload) : FwdOutcome × List Payload :=
  match env.gasUrl with
  | none => (.skipped, [])
  | some _ =>
      if respOk env.gasStatus then (.success, [payload])
      else (.failed env.gasStatus env.gasBody, [payload])

/-- The expression `paymentIntent.metadata?.email`. -/
def metaEmail (o : SObj) : Option String :=
  match o.metadata with
  | none => none
  | some m => SMap.lookup m "email"

/-- The expression
`paymentIntent.receipt_email || paymentIntent.metadata?.email || ''`
from the `payment_intent.canceled` branches. -/
def customerEmailOf (o : SObj) : String :=
  if strTruthy o.receipt_email then o.receipt_email.getD ""
  else if strTruthy (metaEmail o) then (metaEmail o).getD ""
  else ""

/-- The event-type dispatch of the first revision in `src/server.js`
(lines 69-120), factored as the normalizer it implements.  `lookup` is the
result of `stripe.checkout.sessions.list` for the payment intent (an
external collaborator, hence an input).  `Except.error` embeds the
`TypeError` thrown when `session.payment_method_types` is `undefined`
(caught by the route's try/catch); `Except.ok none` means no payload is
produced. -/
def normalizeEventV1 (ev : Event1) (lookup : List SObj) : Except String (Option Payload) :=
  if ev.type = "checkout.session.completed" then
    match ev.object.payment_method_types with
    | none => .error "TypeError: session.payment_method_types is undefined"
    | some pmts =>
        let paymentMethod := if pmts.contains "konbini" then "konbini" else "card"
        let status := if pmts.contains "konbini" then "支払い待ち" else "支払い完了"
        .ok (some { type := some ev.type, data_object := some ev.object,
                    payment_status := some status, payment_method := some paymentMethod })
  else if ev.type = "payment_intent.succeeded" then
    match lookup.head? with
    | some session =>
        .ok (some { type := some "payment_intent.succeeded", data_object := some session,
                    payment_status := some "支払い完了", payment_method := some "konbini" })
    | none => .ok none
  else if ev.type = "payment_intent.canceled" then
    .ok (some { type := some "payment_intent.canceled",
                email := some (customerEmailOf ev.object),
                payment_intent := ev.object.id,
                payment_status := some "キャンセル", payment_method := some "konbini" })
  else .ok none

/-- The HTTP responses the `/webhook` route of `src/server.js` can give. -/
inductive WebhookResp where
  | badRequest (msg : String)
  | received
  | forwardError (msg : String)
deriving Repr, DecidableEq

/-- HTTP status code of each `/webhook` response. -/
def WebhookResp.status : WebhookResp → Nat
  | .badRequest _ => 400
  | .received => 200
  | .forwardError _ => 500

/-- The `/webhook` route of the first revision in `src/server.js`.
`ver` is the result of `stripe.webhooks.constructEvent` (the external
signature verification); `lookup` is the session-by-payment-intent lookup
result.  Returns the HTTP response together with the list of network POSTs
made to the GAS endpoint. -/
def webhookRoute (env : Env) (ver : Except String Event1) (lookup : List SObj) :
    WebhookResp × List Payload :=
  match ver with
  | .error msg => (.badRequest ("Webhook Error: " ++ msg), [])
  | .ok ev =>
      match normalizeEventV1 ev lookup with
      | .error msg => (.forwardError ("Forward Error: " ++ msg), [])
      | .ok none => (.received, [])
      | .ok (some payload) =>
          match forwardEventToGas env payload with
          | (.failed st bd, posted) =>
              (.forwardError ("Forward Error: Failed to forward event to GAS (" ++
                 toString st ++ "): " ++ bd), posted)
          | (_, posted) => (.received, posted)

/-- The expression `session.payment_method_types?.[0] || ''` of
`src/unnamed/part_000` / `part_001`. -/
def firstMethodOrEmpty (o : Option (List String)) : String :=
  match o with
  | some (x :: _) => x
  | _ => ""

/-- The event-type dispatch of `src/unnamed/part_001` (lines 77-112),
identical to the one of `src/unnamed/part_000`: the
`payment_intent.succeeded` payload is re-typed as
`checkout.session.async_payment_succeeded`, and the canceled payload is
typed `cancel_reservation`.  `none` means no payload is produced. -/
def normalizeEventV2 (ev : Event1) (lookup : List SObj) : Option Payload :=
  if ev.type = "checkout.session.completed" then
    some { type := some ev.type, data_object := some ev.object,
           payment_status := ev.object.payment_status,
           payment_method := some (firstMethodOrEmpty ev.object.payment_method_types) }
  else if ev.type = "payment_intent.succeeded" then
    match lookup.head? with
    | some session =>
        some { type := some "checkout.session.async_payment_succeeded",
               data_object := some session,
               payment_status := session.payment_status,
               payment_method := some (firstMethodOrEmpty session.payment_method_types) }
    | none => none
  else if ev.type = "payment_intent.canceled" then
    some { type := some "cancel_reservation",
           email := some (customerEmailOf ev.object),
           payment_intent := ev.object.id }
  else none

/-- The `event.data` box of the last revision in `src/server.js`: `data` may
be absent, and `data.object` may be absent inside it. -/
structure EventDataBox where
  object : Option SObj := none
deriving Repr, DecidableEq

/-- A Stripe event as read by `buildCheckoutPayload`: every field access in
that function is guarded or `||`-defaulted, so every field may be absent. -/
structure JEvent where
  type : Option String := none
  created : Option Nat := none
  livemode : Option Bool := none
  sessionId : Option String := none
  id : Option String := none
  payment_intent : Option String := none
  payment_status : Option String := none
  payment_method_types : Option (List String) := none
  metadata : Option SMap := none
  data : Option EventDataBox := none
deriving Repr, DecidableEq

/-- The payload returned by `buildCheckoutPayload`: the duplicated
top-level fields together with the nested `data.object` structure. -/
structure CheckoutPayload where
  type : Option String
  created : Option Nat
  livemode : Option Bool
  sessionId : Option String
  id : Option String
  payment_intent : Option String
  payment_status : Option String
  payment_method_types : List String
  customer_email : Option String
  metadata : SMap
  data_object : SObj
deriving Repr, DecidableEq

/-- The expression `(event && event.data && event.data.object) || {}`:
objects are always truthy, so this is the nested session when present and
the empty object otherwise. -/
def sessionOfEvent (event : JEvent) : SObj :=
  match event.data with
  | some box =>
      match box.object with
      | some s => s
      | none => {}
  | none => {}

/-- The expression `session.customer_details && session.customer_details.email`. -/
def customerDetailsEmail (session : SObj) : Option String :=
  match session.customer_details with
  | some cd => cd.email
  | none => none

/-- The helper `buildCheckoutPayload` of the last revision in
`src/server.js` (lines 461-483): normalises a Stripe checkout event into
the payload delivered to GAS, duplicating fields at top level with
`||`-style defaulting next to the nested `data.object` structure.  Arrays
and objects are truthy whenever present, so the array and object defaults
only fire when both the session's and the event's field are absent. -/
def buildCheckoutPayload (event : JEvent) : CheckoutPayload :=
  let session := sessionOfEvent event
  { type := event.type
    created := event.created
    livemode := event.livemode
    sessionId := firstTruthy [session.id, event.sessionId, event.id]
    id := firstTruthy [session.id]
    payment_intent := firstTruthy [session.payment_intent, event.payment_intent]
    payment_status := firstTruthy [session.payment_status, event.payment_status]
    payment_method_types :=
      match session.payment_method_types with
      | some l => l
      | none =>
          match event.payment_method_types with
          | some l => l
          | none => []
    customer_email := firstTruthy [customerDetailsEmail session, session.customer_email]
    metadata :=
      match session.metadata with
      | some m => m
      | none =>
          match event.metadata with
          | some m => m
          | none => []
    data_object := session }

/-- A JavaScript value as it can arrive in `req.body.amount`: absent
(`undefined`), `null`, a finite number, `NaN`, an infinity, a string, or a
boolean. -/
inductive JVal where
  | vundef
  | vnull
  | vnum (q : ℚ)
  | vnan
  | vinf (neg : Bool)
  | vstr (s : String)
  | vbool (b : Bool)
deriving Repr, DecidableEq

/-- JavaScript truthiness of a `JVal`: `undefined`, `null`, `0`, `NaN`,
`''` and `false` are the falsy values. -/
def JVal.truthy : JVal → Bool
  | .vundef => false
  | .vnull => false
  | .vnum q => if q = 0 then false else true
  | .vnan => false
  | .vinf _ => true
  | .vstr s => !(s == "")
  | .vbool b => b

/-- Split a character list at every occurrence of the separator, the
string `split` of JavaScript restricted to one-character separators. -/
def splitChar (sep : Char) : List Char → List (List Char)
  | [] => [[]]
  | c :: rest =>
      let r := splitChar sep rest
      if c = sep then [] :: r
      else
        match r with
        | [] => [[c]]
        | g :: gs => (c :: g) :: gs

/-- Value of a decimal digit, `none` on any other character. -/
def digitVal (c : Char) : Option Nat :=
  if c.isDigit then some (c.toNat - 48) else none

/-- Read an all-digits character list left to right. -/
def digitsToNatAux : List Char → Nat → Option Nat
  | [], acc => some acc
  | c :: rest, acc =>
      match digitVal c with
      | some d => digitsToNatAux rest (acc * 10 + d)
      | none => none

/-- A non-empty all-digits character list as a natural number, `none`
otherwise — the digit-string fragment of JavaScript `Number`. -/
def digitsToNat : List Char → Option Nat
  | [] => none
  | cs => digitsToNatAux cs 0

/-- Decimal numeral (digits with an optional fraction part) to a rational,
`none` when the character list is not of that shape. -/
def decToRat (cs : List Char) : Option ℚ :=
  match splitChar '.' cs with
  | [w] => (digitsToNat w).map (fun n => (n : ℚ))
  | [w, f] =>
      match digitsToNat w, digitsToNat f with
      | some n, some m => some ((n : ℚ) + (m : ℚ) / ((10 : ℚ) ^ f.length))
      | _, _ => none
  | _ => none

/-- ECMAScript `ToNumber` on a string, restricted to the optional-sign
decimal numerals exercised here: the empty string converts to `0`, any
string outside this fragment converts to `NaN` (`none`). -/
def strToNumber (s : String) : Option ℚ :=
  match s.data with
  | [] => some 0
  | '-' :: rest => (decToRat rest).map Neg.neg
  | '+' :: rest => decToRat rest
  | cs => decToRat cs

/-- The global `isNaN(v)`: convert `v` to a number and test for `NaN`.
`undefined` and `NaN` convert to `NaN`; `null` and booleans convert to
`0`/`1`; strings convert through `strToNumber`. -/
def JVal.isNaNAfterToNumber : JVal → Bool
  | .vundef => true
  | .vnull => false
  | .vnum _ => false
  | .vnan => true
  | .vinf _ => false
  | .vstr s => (strToNumber s).isNone
  | .vbool _ => false

/-- The responses of the `/create-checkout-session` routes. -/
inductive CreateResp where
  | invalidAmount
  | cutoffRejected
  | sessionUrl (url : String)
  | createError (msg : String)
deriving Repr, DecidableEq

/-- HTTP status code of each `/create-checkout-session` response. -/
def CreateResp.status : CreateResp → Nat
  | .invalidAmount => 400
  | .cutoffRejected => 400
  | .sessionUrl _ => 200
  | .createError _ => 500

/-- The environment of a session-creation request: what
`stripe.checkout.sessions.create` (an external collaborator) would answer —
the session URL, or a thrown error. -/
structure CreateEnv where
  createResult : Except String String
deriving Repr

/-- The `/create-checkout-session` route of the first revision in
`src/server.js` (lines 135-176), restricted to its control flow on
`amount`: the guard `!amount || isNaN(amount)` answers 400 `Invalid
amount`; otherwise `stripe.checkout.sessions.create` is called.  The
second component counts the provider (Stripe) calls attempted. -/
def createCheckoutSessionV1 (env : CreateEnv) (amount : JVal) : CreateResp × Nat :=
  if !amount.truthy || amount.isNaNAfterToNumber then (.invalidAmount, 0)
  else
    match env.createResult with
    | .ok url => (.sessionUrl url, 1)
    | .error msg => (.createError msg, 1)

/-- A civil date-time in the fixed timezone (Asia/Tokyo), as produced by
`nowJST()`. -/
structure CivilDT where
  year : Nat
  month : Nat
  day : Nat
  hour : Nat
  minute : Nat
deriving Repr, DecidableEq

/-- The sell-stop hour of `src/unnamed/part_002`. -/
def SELL_STOP_HOUR : Nat := 12

/-- The sell-stop minute of `src/unnamed/part_002`. -/
def SELL_STOP_MIN : Nat := 0

/-- The function `isAfterSellStop` of `src/unnamed/part_002`
(lines 113-117). -/
def isAfterSellStop (now : CivilDT) : Bool :=
  decide (SELL_STOP_HOUR < now.hour) ||
    (decide (now.hour = SELL_STOP_HOUR) && decide (SELL_STOP_MIN ≤ now.minute))

/-- Gregorian leap-year rule, as implemented by the JavaScript `Date`
calendar. -/
def isLeap (y : Nat) : Bool :=
  (decide (y % 4 = 0) && decide (y % 100 ≠ 0)) || decide (y % 400 = 0)

/-- Number of days of a month in the JavaScript `Date` calendar. -/
def daysInMonth (y m : Nat) : Nat :=
  if m = 2 then (if isLeap y then 29 else 28)
  else if m = 4 ∨ m = 6 ∨ m = 9 ∨ m = 11 then 30
  else 31

/-- The calendar day after `(y, m, d)`: the effect of
`tomorrow.setDate(today.getDate() + 1)` on a valid date. -/
def nextDay (y m d : Nat) : Nat × Nat × Nat :=
  if d < daysInMonth y m then (y, m, d + 1)
  else if m < 12 then (y, m + 1, 1)
  else (y + 1, 1, 1)

/-- The destructuring `const [y, m, d] = checkinStr.split('-').map(Number)`
followed by `new Date(y, m - 1, d)`: a `YYYY-MM-DD` string to its calendar
triple, `none` when the string is not three dash-separated numerals (in
which case the `Date` is invalid and every field comparison is false). -/
def parseYMD (s : String) : Option (Nat × Nat × Nat) :=
  match splitChar '-' s.data with
  | [ys, ms, ds] =>
      match digitsToNat ys, digitsToNat ms, digitsToNat ds with
      | some y, some m, some d => some (y, m, d)
      | _, _, _ => none
  | _ => none

/-- The function `isTomorrowJST` of `src/unnamed/part_002`
(lines 119-138): false for an absent or empty check-in string, and
otherwise a year/month/day comparison of the parsed check-in date against
the calendar day after `now` in the fixed timezone. -/
def isTomorrowJST (now : CivilDT) (checkinStr : Option String) : Bool :=
  match checkinStr with
  | none => false
  | some s =>
      if s = "" then false
      else
        match parseYMD s with
        | none => false
        | some (y, m, d) =>
            let t := nextDay now.year now.month now.day
            decide (y = t.1) && decide (m = t.2.1) && decide (d = t.2.2)

/-- The `/create-checkout-session` route of the sell-stop revision in
`src/unnamed/part_002` (lines 245-293), restricted to its control flow:
first the cutoff guard `isTomorrowJST(checkin) && isAfterSellStop(now)`
answers 400 with the cutoff message, then the amount guard answers 400
`Invalid amount`, and otherwise the provider call is made.  `checkin` is
`req.body.metadata.checkin`; the second component counts provider calls. -/
def createCheckoutSessionSellStop (env : CreateEnv) (now : CivilDT)
    (amount : JVal) (checkin : Option String) : CreateResp × Nat :=
  if isTomorrowJST now checkin && isAfterSellStop now then (.cutoffRejected, 0)
  else if !amount.truthy || amount.isNaNAfterToNumber then (.invalidAmount, 0)
  else
    match env.createResult with
    | .ok url => (.sessionUrl url, 1)
    | .error msg => (.createError msg, 1)

/-- The reservation-request body read by the `/create-checkout-session`
route of `src/unnamed/part_000`; each field may be absent. -/
structure ReqBody where
  checkin : Option String := none
  checkoutDate : Option String := none
  nights : Option String := none
  adults : Option String := none
  child11 : Option String := none
  child6 : Option String := none
  child3 : Option String := none
  kanaLastName : Option String := none
  kanaFirstName : Option String := none
  kanjiLastName : Option String := none
  kanjiFirstName : Option String := none
  email : Option String := none
  tel : Option String := none
  amount : Option String := none
  detail : Option String := none
deriving Repr, DecidableEq

/-- The expression `req.body.x || ''` on a string field. -/
def orEmpty (o : Option String) : String := o.getD ""

/-- The `metadata` object attached at session creation by
`src/unnamed/part_000` (lines 138-154): every booking attribute is passed
as an opaque string, defaulting to the empty string (the `checkout` body
field is embedded as `checkoutDate`, `req.body.tel` feeds `phone` and
`req.body.amount` feeds `total`). -/
def creationMetadata (b : ReqBody) : SMap :=
  [("checkin", orEmpty b.checkin),
   ("checkout", orEmpty b.checkoutDate),
   ("nights", orEmpty b.nights),
   ("adults", orEmpty b.adults),
   ("child11", orEmpty b.child11),
   ("child6", orEmpty b.child6),
   ("child3", orEmpty b.child3),
   ("kanaLastName", orEmpty b.kanaLastName),
   ("kanaFirstName", orEmpty b.kanaFirstName),
   ("kanjiLastName", orEmpty b.kanjiLastName),
   ("kanjiFirstName", orEmpty b.kanjiFirstName),
   ("email", orEmpty b.email),
   ("phone", orEmpty b.tel),
   ("total", orEmpty b.amount),
   ("detail", orEmpty b.detail)]

/-- C1: For every verified checkout-session-completed event, if the
session's `payment_method_types` sequence includes the konbini ("pay at
physical store") method, the forwarded payload has `payment_method` set to
`konbini` and the pending payment status 支払い待ち; for every other
`payment_method_types` sequence the forwarded payload has the completed
payment status 支払い完了 (and `payment_method` `card`). -/
theorem checkout_completed_konbini_pending (ev : Event1) (lookup : List SObj)
    (pmts : List String)
    (hty : ev.type = "checkout.session.completed")
    (hpmt : ev.object.payment_method_types = some pmts) :
    (pmts.contains "konbini" = true →
      normalizeEventV1 ev lookup = Except.ok (some
        { type := some "checkout.session.completed", data_object := some ev.object,
          payment_status := some "支払い待ち", payment_method := some "konbini" })) ∧
    (pmts.contains "konbini" = false →
      normalizeEventV1 ev lookup = Except.ok (some
        { type := some "checkout.session.completed", data_object := some ev.object,
          payment_status := some "支払い完了", payment_method := some "card" })) := by
  refine ⟨fun h => ?_, fun h => ?_⟩ <;> simp [normalizeEventV1, hty, hpmt] <;> simpa using h

/-- Witness for C1 at a konbini session and at a card-only session. -/
theorem checkout_completed_konbini_pending_witness :
    normalizeEventV1 ⟨"checkout.session.completed",
        { payment_method_types := some ["card", "konbini"] }⟩ [] =
      Except.ok (some
        { type := some "checkout.session.completed",
          data_object := some { payment_method_types := some ["card", "konbini"] },
          payment_status := some "支払い待ち", payment_method := some "konbini" }) ∧
    normalizeEventV1 ⟨"checkout.session.completed",
        { payment_method_types := some ["card"] }⟩ [] =
      Except.ok (some
        { type := some "checkout.session.completed",
          data_object := some { payment_method_types := some ["card"] },
          payment_status := some "支払い完了", payment_method := some "card" }) :=
  ⟨(checkout_completed_konbini_pending ⟨"checkout.session.completed",
      { payment_method_types := some ["card", "konbini"] }⟩ [] ["card", "konbini"]
      rfl rfl).1 (by decide),
   (checkout_completed_konbini_pending ⟨"checkout.session.completed",
      { payment_method_types := some ["card"] }⟩ [] ["card"]
      rfl rfl).2 (by decide)⟩

/-- C2 counterexample: in the first revision of `src/server.js`, a
payment-succeeded event whose lookup finds a session yields a payload that
keeps the type `payment_intent.succeeded` — it is not re-typed as the
async-succeeded completion `checkout.session.async_payment_succeeded`. -/
theorem succeeded_not_retyped_cex :
    normalizeEventV1 ⟨"payment_intent.succeeded", { id := some "pi_1" }⟩
        [{ id := some "cs_1", metadata := some [("checkin", "2025-06-01")] }] =
      Except.ok (some
        { type := some "payment_intent.succeeded",
          data_object := some { id := some "cs_1",
                                metadata := some [("checkin", "2025-06-01")] },
          payment_status := some "支払い完了", payment_method := some "konbini" }) ∧
    (some "payment_intent.succeeded" : Option String) ≠
      some "checkout.session.async_payment_succeeded" :=
  ⟨rfl, by decide⟩

/-- C2 amended: for every verified payment-succeeded event whose session
lookup returns a session, the payload's `data.object` is the looked-up
session (so the forwarded metadata is the session's, not the payment
intent's); the `part_000`/`part_001` revisions additionally re-type the
payload as `checkout.session.async_payment_succeeded`, while the
`src/server.js` revision keeps the type `payment_intent.succeeded`. -/
theorem succeeded_uses_looked_up_session (ev : Event1) (s : SObj) (rest : List SObj)
    (hty : ev.type = "payment_intent.succeeded") :
    normalizeEventV2 ev (s :: rest) = some
      { type := some "checkout.session.async_payment_succeeded",
        data_object := some s, payment_status := s.payment_status,
        payment_method := some (firstMethodOrEmpty s.payment_method_types) } ∧
    normalizeEventV1 ev (s :: rest) = Except.ok (some
      { type := some "payment_intent.succeeded", data_object := some s,
        payment_status := some "支払い完了", payment_method := some "konbini" }) := by
  constructor <;> simp [normalizeEventV2, normalizeEventV1, hty]

/-- Witness for the amended C2 at a concrete event and session. -/
theorem succeeded_uses_looked_up_session_witness :
    normalizeEventV2 ⟨"payment_intent.succeeded", { id := some "pi_9" }⟩
        [{ id := some "cs_9", payment_status := some "paid",
           metadata := some [("adults", "2")] }] = some
      { type := some "checkout.session.async_payment_succeeded",
        data_object := some { id := some "cs_9", payment_status := some "paid",
                              metadata := some [("adults", "2")] },
        payment_status := some "paid", payment_method := some "" } ∧
    normalizeEventV1 ⟨"payment_intent.succeeded", { id := some "pi_9" }⟩
        [{ id := some "cs_9", payment_status := some "paid",
           metadata := some [("adults", "2")] }] = Except.ok (some
      { type := some "payment_intent.succeeded",
        data_object := some { id := some "cs_9", payment_status := some "paid",
                              metadata := some [("adults", "2")] },
        payment_status := some "支払い完了", payment_method := some "konbini" }) :=
  succeeded_uses_looked_up_session ⟨"payment_intent.succeeded", { id := some "pi_9" }⟩
    { id := some "cs_9", payment_status := some "paid",
      metadata := some [("adults", "2")] } [] rfl

/-- C3: For every verified payment-canceled event, the forwarded
cancellation payload carries `email := some e` for a string `e` (never
null/undefined) equal to `receipt_email` when that is present (truthy),
else `metadata.email` when that is present, else the empty string.  The
same holds for the `cancel_reservation` payload of
`src/unnamed/part_000`/`part_001`. -/
theorem canceled_email_best_effort (ev : Event1) (lookup : List SObj)
    (hty : ev.type = "payment_intent.canceled") :
    normalizeEventV1 ev lookup = Except.ok (some
      { type := some "payment_intent.canceled",
        email := some (customerEmailOf ev.object),
        payment_intent := ev.object.id,
        payment_status := some "キャンセル", payment_method := some "konbini" }) ∧
    normalizeEventV2 ev lookup = some
      { type := some "cancel_reservation",
        email := some (customerEmailOf ev.object),
        payment_intent := ev.object.id } ∧
    (strTruthy ev.object.receipt_email = true →
       some (customerEmailOf ev.object) = ev.object.receipt_email) ∧
    (strTruthy ev.object.receipt_email = false →
       strTruthy (metaEmail ev.object) = true →
       some (customerEmailOf ev.object) = metaEmail ev.object) ∧
    (strTruthy ev.object.receipt_email = false →
       strTruthy (metaEmail ev.object) = false →
       customerEmailOf ev.object = "") := by
  refine ⟨by simp [normalizeEventV1, hty], by simp [normalizeEventV2, hty], ?_, ?_, ?_⟩
  · intro h
    cases hre : ev.object.receipt_email with
    | none => rw [hre] at h; simp [strTruthy] at h
    | some s =>
        rw [hre] at h
        simp [customerEmailOf, hre, h]
  · intro h hm
    cases hme : metaEmail ev.object with
    | none => rw [hme] at hm; simp [strTruthy] at hm
    | some s =>
        rw [hme] at hm
        simp [customerEmailOf, h, hme, hm]
  · intro h hm
    simp [customerEmailOf, h, hm]

/-- Witness for C3 covering the three fallback cases. -/
theorem canceled_email_best_effort_witness :
    normalizeEventV1 ⟨"payment_intent.canceled",
        { id := some "pi_a", receipt_email := some "a@x.jp" }⟩ [] = Except.ok (some
      { type := some "payment_intent.canceled", email := some "a@x.jp",
        payment_intent := some "pi_a",
        payment_status := some "キャンセル", payment_method := some "konbini" }) ∧
    normalizeEventV2 ⟨"payment_intent.canceled",
        { id := some "pi_b", metadata := some [("email", "b@x.jp")] }⟩ [] = some
      { type := some "cancel_reservation", email := some "b@x.jp",
        payment_intent := some "pi_b" } ∧
    normalizeEventV2 ⟨"payment_intent.canceled", { id := some "pi_c" }⟩ [] = some
      { type := some "cancel_reservation", email := some "",
        payment_intent := some "pi_c" } := by
  refine ⟨?_, ?_, ?_⟩
  · have h := (canceled_email_best_effort ⟨"payment_intent.canceled",
      { id := some "pi_a", receipt_email := some "a@x.jp" }⟩ [] rfl).1
    rw [h]; rfl
  · have h := (canceled_email_best_effort ⟨"payment_intent.canceled",
      { id := some "pi_b", metadata := some [("email", "b@x.jp")] }⟩ [] rfl).2.1
    rw [h]; rfl
  · have h := (canceled_email_best_effort ⟨"payment_intent.canceled",
      { id := some "pi_c" }⟩ [] rfl).2.1
    rw [h]; rfl

/-- C4: For every inbound webhook request whose signature verification
fails (the embedded `constructEvent` result is an error), the route
responds with HTTP 400 and makes no downstream POST, whatever the event
body or environment. -/
theorem signature_failure_400_no_forward (env : Env) (msg : String) (lookup : List SObj) :
    webhookRoute env (Except.error msg) lookup =
      (WebhookResp.badRequest ("Webhook Error: " ++ msg), []) ∧
    (WebhookResp.badRequest ("Webhook Error: " ++ msg)).status = 400 :=
  ⟨rfl, rfl⟩

/-- C7: For every verified payment-succeeded event whose session lookup
returns zero sessions, the route forwards nothing, raises no error, and
responds 200. -/
theorem succeeded_lookup_miss_noop (env : Env) (ev : Event1)
    (hty : ev.type = "payment_intent.succeeded") :
    webhookRoute env (Except.ok ev) [] = (WebhookResp.received, []) ∧
    WebhookResp.received.status = 200 := by
  refine ⟨?_, rfl⟩
  simp [webhookRoute, normalizeEventV1, hty]

/-- Witness for C7 at a concrete payment intent. -/
theorem succeeded_lookup_miss_noop_witness :
    webhookRoute ⟨some "https://gas", 200, ""⟩
      (Except.ok ⟨"payment_intent.succeeded", { id := some "pi_7" }⟩) [] =
      (WebhookResp.received, []) :=
  (succeeded_lookup_miss_noop ⟨some "https://gas", 200, ""⟩
    ⟨"payment_intent.succeeded", { id := some "pi_7" }⟩ rfl).1

/-- C5 counterexample: the amount `-5` is a finite number that is not
positive, yet the handler does not answer 400 `Invalid amount` — the guard
`!amount || isNaN(amount)` lets every non-zero finite number through — and
the provider session-creation call is attempted. -/
theorem invalid_amount_negative_cex :
    ¬ (0 < (-5 : ℚ)) ∧
    (createCheckoutSessionV1 ⟨Except.ok "https://checkout.stripe.com/s"⟩
        (JVal.vnum (-5))).1 ≠ CreateResp.invalidAmount ∧
    (createCheckoutSessionV1 ⟨Except.ok "https://checkout.stripe.com/s"⟩
        (JVal.vnum (-5))).2 = 1 := by
  refine ⟨by norm_num, by decide, by decide⟩

/-- C5 amended: the handler answers 400 `Invalid amount` and attempts no
provider call exactly when the amount is JavaScript-falsy (absent, null,
zero, `NaN`, the empty string, `false`) or coerces to `NaN` (a non-numeric
string); any other amount — including a negative or infinite number or a
numeric string — passes the guard and the provider session-creation call
is attempted. -/
theorem invalid_amount_guard (env : CreateEnv) (amount : JVal) :
    (amount.truthy = false ∨ amount.isNaNAfterToNumber = true →
       createCheckoutSessionV1 env amount = (CreateResp.invalidAmount, 0) ∧
       CreateResp.invalidAmount.status = 400) ∧
    (amount.truthy = true → amount.isNaNAfterToNumber = false →
       (createCheckoutSessionV1 env amount).1 ≠ CreateResp.invalidAmount ∧
       (createCheckoutSessionV1 env amount).2 = 1) := by
  constructor
  · rintro (h | h) <;> exact ⟨by simp [createCheckoutSessionV1, h], rfl⟩
  · intro h1 h2
    cases henv : env.createResult with
    | ok url => simp [createCheckoutSessionV1, h1, h2, henv]
    | error msg => simp [createCheckoutSessionV1, h1, h2, henv]

/-- Witness for the amended C5: an absent amount is rejected with no
provider call, a NaN amount likewise, and a positive amount goes through. -/
theorem invalid_amount_guard_witness :
    createCheckoutSessionV1 ⟨Except.ok "https://s"⟩ JVal.vundef =
      (CreateResp.invalidAmount, 0) ∧
    createCheckoutSessionV1 ⟨Except.ok "https://s"⟩ JVal.vnan =
      (CreateResp.invalidAmount, 0) ∧
    (createCheckoutSessionV1 ⟨Except.ok "https://s"⟩ (JVal.vnum 30000)).2 = 1 :=
  ⟨((invalid_amount_guard ⟨Except.ok "https://s"⟩ JVal.vundef).1 (Or.inl rfl)).1,
   ((invalid_amount_guard ⟨Except.ok "https://s"⟩ JVal.vnan).1 (Or.inl rfl)).1,
   ((invalid_amount_guard ⟨Except.ok "https://s"⟩ (JVal.vnum 30000)).2
      (by decide) (by decide)).2⟩

/-- C6: If the requested check-in date is the calendar day after the
current date in the fixed timezone (comparison by year/month/day), then at
or after 12:00 the request is rejected with HTTP 400 by the sell-stop
rule, while before 12:00 (for example 11:59) the same request is not
rejected by the cutoff rule. -/
theorem sell_stop_cutoff (env : CreateEnv) (now : CivilDT) (amount : JVal)
    (cs : String) (y m d : Nat)
    (hparse : parseYMD cs = some (y, m, d))
    (htom : (y, m, d) = nextDay now.year now.month now.day) :
    (12 ≤ now.hour →
       createCheckoutSessionSellStop env now amount (some cs) =
         (CreateResp.cutoffRejected, 0) ∧
       CreateResp.cutoffRejected.status = 400) ∧
    (now.hour < 12 →
       (createCheckoutSessionSellStop env now amount (some cs)).1 ≠
         CreateResp.cutoffRejected) := by
  have hcs : ¬ cs = "" := by
    intro hcz
    rw [hcz] at hparse
    exact Option.noConfusion ((rfl : parseYMD "" = none).symm.trans hparse)
  have htod : isTomorrowJST now (some cs) = true := by
    simp [isTomorrowJST, hcs, hparse, ← htom]
  constructor
  · intro h
    have hstop : isAfterSellStop now = true := by
      rcases eq_or_lt_of_le h with h' | h'
      · simp [isAfterSellStop, SELL_STOP_HOUR, SELL_STOP_MIN, h'.symm]
      · simp [isAfterSellStop, SELL_STOP_HOUR, SELL_STOP_MIN, h']
    exact ⟨by simp [createCheckoutSessionSellStop, htod, hstop], rfl⟩
  · intro h
    have hstop : isAfterSellStop now = false := by
      simp [isAfterSellStop, SELL_STOP_HOUR, SELL_STOP_MIN]
      omega
    by_cases hA : (!amount.truthy || amount.isNaNAfterToNumber) = true
    · simp [createCheckoutSessionSellStop, hstop, hA]
    · simp [createCheckoutSessionSellStop, hstop, hA]
      cases henv : env.createResult with
      | ok url => simp [henv]
      | error msg => simp [henv]

/-- Witness for C6 at the spec's example: now 2025-06-01 12:00 JST with
check-in 2025-06-02 is rejected by the cutoff, while now 2025-06-01 11:59
with the same request is not rejected by the cutoff rule. -/
theorem sell_stop_cutoff_witness :
    createCheckoutSessionSellStop ⟨Except.ok "https://s"⟩ ⟨2025, 6, 1, 12, 0⟩
      (JVal.vnum 30000) (some "2025-06-02") = (CreateResp.cutoffRejected, 0) ∧
    (createCheckoutSessionSellStop ⟨Except.ok "https://s"⟩ ⟨2025, 6, 1, 11, 59⟩
      (JVal.vnum 30000) (some "2025-06-02")).1 ≠ CreateResp.cutoffRejected :=
  ⟨((sell_stop_cutoff ⟨Except.ok "https://s"⟩ ⟨2025, 6, 1, 12, 0⟩
      (JVal.vnum 30000) "2025-06-02" 2025 6 2 (by decide) (by decide)).1
      (by decide)).1,
   (sell_stop_cutoff ⟨Except.ok "https://s"⟩ ⟨2025, 6, 1, 11, 59⟩
      (JVal.vnum 30000) "2025-06-02" 2025 6 2 (by decide) (by decide)).2
      (by decide)⟩

/-- C8: the Forwarder succeeds exactly when the downstream status is 2xx
(200-299), fails carrying the downstream status code and response body
otherwise, and when the destination URL is unset it returns without error
and makes no network call. -/
theorem forwarder_contract (env : Env) (p : Payload) :
    (env.gasUrl = none → forwardEventToGas env p = (FwdOutcome.skipped, [])) ∧
    (env.gasUrl ≠ none →
      ((200 ≤ env.gasStatus ∧ env.gasStatus ≤ 299) →
         forwardEventToGas env p = (FwdOutcome.success, [p])) ∧
      (¬ (200 ≤ env.gasStatus ∧ env.gasStatus ≤ 299) →
         forwardEventToGas env p =
           (FwdOutcome.failed env.gasStatus env.gasBody, [p]))) := by
  constructor
  · intro h
    simp [forwardEventToGas, h]
  · intro h
    cases henv : env.gasUrl with
    | none => exact absurd henv h
    | some u =>
        constructor <;> intro h2 <;> simp [forwardEventToGas, henv, respOk, h2]

/-- Witness for C8: unset URL skips, a 200 response succeeds, a 500
response fails carrying status and body. -/
theorem forwarder_contract_witness :
    forwardEventToGas ⟨none, 200, ""⟩ {} = (FwdOutcome.skipped, []) ∧
    forwardEventToGas ⟨some "https://gas", 200, "ok"⟩ {} =
      (FwdOutcome.success, [{}]) ∧
    forwardEventToGas ⟨some "https://gas", 500, "boom"⟩ {} =
      (FwdOutcome.failed 500 "boom", [{}]) :=
  ⟨(forwarder_contract ⟨none, 200, ""⟩ {}).1 rfl,
   ((forwarder_contract ⟨some "https://gas", 200, "ok"⟩ {}).2 (by decide)).1
     (by decide),
   ((forwarder_contract ⟨some "https://gas", 500, "boom"⟩ {}).2 (by decide)).2
     (by decide)⟩

/-- C9: a string-valued metadata mapping attached at session creation
(`creationMetadata` of `src/unnamed/part_000`) reappears unchanged in the
normalized payload for the later completed-checkout event: the session
object inside the `src/server.js` payload carries exactly that mapping,
and the `metadata` field of `buildCheckoutPayload` equals it.  The
hypothesis `hmeta` is the provider round-trip: the webhook event's session
carries the metadata attached at creation. -/
theorem metadata_roundtrip (b : ReqBody) (ev : Event1) (lookup : List SObj)
    (pmts : List String)
    (hty : ev.type = "checkout.session.completed")
    (hmeta : ev.object.metadata = some (creationMetadata b))
    (hpmt : ev.object.payment_method_types = some pmts) :
    (∃ p, normalizeEventV1 ev lookup = Except.ok (some p) ∧
       p.data_object = some ev.object ∧
       ev.object.metadata = some (creationMetadata b)) ∧
    (buildCheckoutPayload
        { type := some "checkout.session.completed",
          data := some { object := some ev.object } }).metadata =
      creationMetadata b := by
  constructor
  · cases h : pmts.contains "konbini" with
    | true =>
        refine ⟨{ type := some "checkout.session.completed",
                  data_object := some ev.object,
                  payment_status := some "支払い待ち",
                  payment_method := some "konbini" }, ?_, rfl, hmeta⟩
        simp [normalizeEventV1, hty, hpmt]
        simpa using h
    | false =>
        refine ⟨{ type := some "checkout.session.completed",
                  data_object := some ev.object,
                  payment_status := some "支払い完了",
                  payment_method := some "card" }, ?_, rfl, hmeta⟩
        simp [normalizeEventV1, hty, hpmt]
        simpa using h
  · simp [buildCheckoutPayload, sessionOfEvent, hmeta]

/-- Witness for C9 at the spec's example mapping. -/
theorem metadata_roundtrip_witness :
    (∃ p,
      normalizeEventV1
          ⟨"checkout.session.completed",
            { payment_method_types := some ["card"],
              metadata := some (creationMetadata
                { checkin := some "2025-06-01", adults := some "2" }) }⟩ [] =
        Except.ok (some p) ∧
      p.data_object = some
        { payment_method_types := some ["card"],
          metadata := some (creationMetadata
            { checkin := some "2025-06-01", adults := some "2" }) } ∧
      SObj.metadata
          { payment_method_types := some ["card"],
            metadata := some (creationMetadata
              { checkin := some "2025-06-01", adults := some "2" }) } =
        some (creationMetadata
          { checkin := some "2025-06-01", adults := some "2" })) ∧
    CheckoutPayload.metadata
        (buildCheckoutPayload
          { type := some "checkout.session.completed",
            data := some
              { object := some
                  { payment_method_types := some ["card"],
                    metadata := some (creationMetadata
                      { checkin := some "2025-06-01", adults := some "2" }) } } }) =
      creationMetadata { checkin := some "2025-06-01", adults := some "2" } :=
  metadata_roundtrip { checkin := some "2025-06-01", adults := some "2" }
    ⟨"checkout.session.completed",
      { payment_method_types := some ["card"],
        metadata := some (creationMetadata
          { checkin := some "2025-06-01", adults := some "2" }) }⟩
    [] ["card"] rfl rfl rfl

/-- C10: `buildCheckoutPayload` is total (embedded as a Lean function, it
cannot throw), and on an event whose `data` (or `data.object`) is missing
and whose top-level duplicated fields are absent, the returned payload has
`sessionId`, `id`, `payment_intent`, `payment_status` and `customer_email`
equal to null, `payment_method_types` the empty sequence, and `metadata`
the empty mapping. -/
theorem buildCheckoutPayload_defaults (e : JEvent)
    (hd : e.data = none ∨ e.data = some { object := none })
    (hsid : e.sessionId = none) (hid : e.id = none)
    (hpi : e.payment_intent = none) (hps : e.payment_status = none)
    (hpmt : e.payment_method_types = none) (hmd : e.metadata = none) :
    buildCheckoutPayload e =
      { type := e.type, created := e.created, livemode := e.livemode,
        sessionId := none, id := none, payment_intent := none,
        payment_status := none, payment_method_types := [],
        customer_email := none, metadata := [], data_object := {} } := by
  have hsess : sessionOfEvent e = {} := by
    rcases hd with h | h <;> simp [sessionOfEvent, h]
  simp [buildCheckoutPayload, hsess, hsid, hid, hpi, hps, hpmt, hmd,
    firstTruthy, customerDetailsEmail, strTruthy]

/-- Witness for C10 at the empty event and at an event whose `data` box
has no `object`. -/
theorem buildCheckoutPayload_defaults_witness :
    buildCheckoutPayload {} =
      { type := none, created := none, livemode := none,
        sessionId := none, id := none, payment_intent := none,
        payment_status := none, payment_method_types := [],
        customer_email := none, metadata := [], data_object := {} } ∧
    buildCheckoutPayload
        { type := some "checkout.session.expired",
          data := some { object := none } } =
      { type := some "checkout.session.expired", created := none,
        livemode := none, sessionId := none, id := none,
        payment_intent := none, payment_status := none,
        payment_method_types := [], customer_email := none,
        metadata := [], data_object := {} } :=
  ⟨buildCheckoutPayload_defaults {} (Or.inl rfl) rfl rfl rfl rfl rfl rfl,
   buildCheckoutPayload_defaults
     { type := some "checkout.session.expired", data := some { object := none } }
     (Or.inr rfl) rfl rfl rfl rfl rfl rfl⟩
